import Mathlib

/-!
Verification of the reminder scheduling core of the tgreminderbot
repository.  The recurrence calculator (scheduler.compute_next_run and
scheduler.normalize_next_run), the storage operations (storage.py), the
timer-table operations and the fire handler (scheduler.py), and the
orchestrator operations of bot.edit_confirm are embedded below and the
stated properties about them are proved or refuted.
-/

/-- Calendar timestamp in the fixed process timezone: year, month (1 to 12),
day (1 to 31) and second of day.  Mirrors the timezone-aware datetime
values the program manipulates (all datetimes carry the same fixed zone,
so zone conversion never arises). -/
structure DateTime where
  year : Int
  month : Int
  day : Int
  sod : Int
deriving Repr, DecidableEq

/-- Gregorian leap-year test. -/
def isLeapYear (y : Int) : Bool :=
  (y % 4 == 0 && y % 100 != 0) || (y % 400 == 0)

/-- Length of a month of the Gregorian calendar. -/
def daysInMonth (y m : Int) : Int :=
  if m = 2 then (if isLeapYear y then 29 else 28)
  else if m = 4 ∨ m = 6 ∨ m = 9 ∨ m = 11 then 30
  else 31

/-- A structurally valid calendar timestamp (what a Python datetime always
is). -/
def DateTime.Valid (t : DateTime) : Prop :=
  1 ≤ t.month ∧ t.month ≤ 12 ∧ 1 ≤ t.day ∧ t.day ≤ daysInMonth t.year t.month ∧
    0 ≤ t.sod ∧ t.sod < 86400

instance instDecValid (t : DateTime) : Decidable t.Valid := by
  unfold DateTime.Valid; infer_instance

/-- Strictly monotone linearisation of valid timestamps.  Chronological
comparison of datetimes in the source coincides, on valid timestamps,
with comparison of this key (every component stays below its radix). -/
def DateTime.key (t : DateTime) : Int :=
  ((t.year * 12 + (t.month - 1)) * 31 + (t.day - 1)) * 86400 + t.sod

/-- Chronological order on timestamps (Python datetime comparison). -/
def dtLe (a b : DateTime) : Prop := a.key ≤ b.key

/-- Strict chronological order on timestamps. -/
def dtLt (a b : DateTime) : Prop := a.key < b.key

instance instDecDtLe (a b : DateTime) : Decidable (dtLe a b) := by
  unfold dtLe; infer_instance

instance instDecDtLt (a b : DateTime) : Decidable (dtLt a b) := by
  unfold dtLt; infer_instance

/-- Calendar successor day, time of day preserved: datetime + timedelta of
one day. -/
def nextDay (t : DateTime) : DateTime :=
  if t.day < daysInMonth t.year t.month then { t with day := t.day + 1 }
  else if t.month < 12 then { t with month := t.month + 1, day := 1 }
  else { t with year := t.year + 1, month := 1, day := 1 }

/-- datetime + timedelta of n days. -/
def addDays (t : DateTime) (n : Nat) : DateTime := nextDay^[n] t

/-- datetime + relativedelta of n months: calendar month arithmetic with
the day clamped to the length of the target month. -/
def addMonths (t : DateTime) (n : Nat) : DateTime :=
  let total : Int := t.year * 12 + (t.month - 1) + n
  let y := total / 12
  let m := total % 12 + 1
  { t with year := y, month := m, day := min t.day (daysInMonth y m) }

/-- The recurrence rules (the period column of the store). -/
inductive Period
  | one_time
  | daily
  | weekly
  | biweekly
  | monthly
  | quarterly
deriving Repr, DecidableEq

/-- Source-level name of a rule, used in the ValueError message. -/
def Period.name : Period → String
  | .one_time => "one_time"
  | .daily => "daily"
  | .weekly => "weekly"
  | .biweekly => "biweekly"
  | .monthly => "monthly"
  | .quarterly => "quarterly"

/-- A period step: a fixed number of days (timedelta) or of calendar
months (relativedelta). -/
inductive Delta
  | days (n : Nat)
  | months (n : Nat)
deriving Repr, DecidableEq

/-- The PERIODS table of scheduler.py; one_time maps to None. -/
def PERIODS : Period → Option Delta
  | .one_time => none
  | .daily => some (.days 1)
  | .weekly => some (.days 7)
  | .biweekly => some (.days 14)
  | .monthly => some (.months 1)
  | .quarterly => some (.months 3)

/-- Applying one step of a delta to a timestamp. -/
def applyDelta : Delta → DateTime → DateTime
  | .days n, t => addDays t n
  | .months n, t => addMonths t n

/-- The while loop of compute_next_run: advance t by the delta while
t ≤ now.  The fuel argument bounds the number of iterations;
compute_next_run supplies fuel that provably exceeds the number of steps
the loop performs (each step advances the key by at least 86400), so the
returned value is the exact value the unbounded source loop returns. -/
def computeLoopD (delta : Delta) (now : DateTime) : Nat → DateTime → DateTime
  | 0, t => t
  | Nat.succ n, t =>
    if dtLe t now then computeLoopD delta now n (applyDelta delta t) else t

/-- Iteration bound passed to the loop; see computeLoopD. -/
def loopFuel (base now : DateTime) : Nat := (now.key + 1 - base.key).toNat

/-- compute_next_run(base_time, period, now) of scheduler.py: raises
ValueError when PERIODS yields no delta (the one_time rule), otherwise
advances base_time by the delta of the rule until the result exceeds
now. -/
def compute_next_run (base_time : DateTime) (period : Period) (now : DateTime) :
    Except String DateTime :=
  match PERIODS period with
  | none => .error ("Unknown period: " ++ period.name)
  | some delta => .ok (computeLoopD delta now (loopFuel base_time now) base_time)

/-- normalize_next_run(start_time, period, now) of scheduler.py. -/
def normalize_next_run (start_time : DateTime) (period : Period) (now : DateTime) :
    Except String DateTime :=
  if period = Period.one_time then
    .ok (if dtLt now start_time then start_time else now)
  else if dtLt now start_time then .ok start_time
  else compute_next_run start_time period now

lemma daysInMonth_bounds (y m : Int) : 28 ≤ daysInMonth y m ∧ daysInMonth y m ≤ 31 := by
  unfold daysInMonth
  split
  · split <;> omega
  · split <;> omega

lemma nextDay_valid (t : DateTime) (h : t.Valid) : (nextDay t).Valid := by
  obtain ⟨h1, h2, h3, h4, h5, h6⟩ := h
  have hb2 := daysInMonth_bounds t.year (t.month + 1)
  have hb3 := daysInMonth_bounds (t.year + 1) 1
  unfold nextDay DateTime.Valid
  split
  · dsimp only; omega
  · split <;> (dsimp only; omega)

lemma key_add_nextDay (t : DateTime) (h : t.Valid) :
    t.key + 86400 ≤ (nextDay t).key := by
  obtain ⟨h1, h2, h3, h4, h5, h6⟩ := h
  have hb := daysInMonth_bounds t.year t.month
  unfold nextDay DateTime.key
  split
  · dsimp only; omega
  · split <;> (dsimp only; omega)

lemma addDays_valid (n : Nat) (t : DateTime) (h : t.Valid) : (addDays t n).Valid := by
  induction n generalizing t with
  | zero => exact h
  | succ k ih =>
    unfold addDays at *
    rw [Function.iterate_succ_apply]
    exact ih (nextDay t) (nextDay_valid t h)

lemma key_add_addDays (n : Nat) (t : DateTime) (h : t.Valid) (hn : 1 ≤ n) :
    t.key + 86400 ≤ (addDays t n).key := by
  induction n generalizing t with
  | zero => omega
  | succ k ih =>
    unfold addDays at *
    rw [Function.iterate_succ_apply]
    rcases Nat.eq_zero_or_pos k with hk | hk
    · subst hk
      simpa using key_add_nextDay t h
    · have h2 := ih (nextDay t) (nextDay_valid t h) hk
      have h3 := key_add_nextDay t h
      omega

lemma addMonths_valid (n : Nat) (t : DateTime) (h : t.Valid) : (addMonths t n).Valid := by
  obtain ⟨h1, h2, h3, h4, h5, h6⟩ := h
  have hb := daysInMonth_bounds
    ((t.year * 12 + (t.month - 1) + n) / 12)
    ((t.year * 12 + (t.month - 1) + n) % 12 + 1)
  unfold addMonths DateTime.Valid
  dsimp only
  omega

lemma key_add_addMonths (n : Nat) (t : DateTime) (h : t.Valid) (hn : 1 ≤ n) :
    t.key + 86400 ≤ (addMonths t n).key := by
  obtain ⟨h1, h2, h3, h4, h5, h6⟩ := h
  have hb := daysInMonth_bounds t.year t.month
  have hb2 := daysInMonth_bounds
    ((t.year * 12 + (t.month - 1) + n) / 12)
    ((t.year * 12 + (t.month - 1) + n) % 12 + 1)
  unfold addMonths DateTime.key
  dsimp only
  omega

/-- Positivity of a delta: every delta the PERIODS table produces steps
forward by at least one unit. -/
def Delta.Pos : Delta → Prop
  | .days n => 1 ≤ n
  | .months n => 1 ≤ n

lemma PERIODS_pos (p : Period) (d : Delta) (h : PERIODS p = some d) : d.Pos := by
  cases p <;> simp [PERIODS] at h <;> simp [← h, Delta.Pos]

lemma applyDelta_valid (d : Delta) (t : DateTime) (h : t.Valid) :
    (applyDelta d t).Valid := by
  cases d with
  | days n => exact addDays_valid n t h
  | months n => exact addMonths_valid n t h

lemma key_add_applyDelta (d : Delta) (t : DateTime) (hd : d.Pos) (h : t.Valid) :
    t.key + 86400 ≤ (applyDelta d t).key := by
  cases d with
  | days n => exact key_add_addDays n t h hd
  | months n => exact key_add_addMonths n t h hd

deriving instance DecidableEq for Except

lemma computeLoopD_valid (d : Delta) (now : DateTime) :
    ∀ fuel t, t.Valid → (computeLoopD d now fuel t).Valid := by
  intro fuel
  induction fuel with
  | zero => intro t h; exact h
  | succ n ih =>
    intro t h
    unfold computeLoopD
    split
    · exact ih (applyDelta d t) (applyDelta_valid d t h)
    · exact h

lemma computeLoopD_gt (d : Delta) (now : DateTime) (hd : d.Pos) :
    ∀ (fuel : Nat) (t : DateTime), t.Valid → now.key < t.key + 86400 * (fuel : Int) →
      dtLt now (computeLoopD d now fuel t) := by
  intro fuel
  induction fuel with
  | zero =>
    intro t h hf
    unfold computeLoopD dtLt
    omega
  | succ n ih =>
    intro t h hf
    unfold computeLoopD
    split
    · refine ih (applyDelta d t) (applyDelta_valid d t h) ?_
      have hstep := key_add_applyDelta d t hd h
      push_cast at hf ⊢
      omega
    · unfold dtLe at *
      unfold dtLt
      omega

lemma computeLoopD_iterate (d : Delta) (now : DateTime) :
    ∀ fuel t, ∃ k, k ≤ fuel ∧ computeLoopD d now fuel t = (applyDelta d)^[k] t ∧
      (dtLe t now → 1 ≤ fuel → 1 ≤ k) ∧ (¬ dtLe t now → k = 0) := by
  intro fuel
  induction fuel with
  | zero =>
    intro t
    exact ⟨0, le_refl 0, rfl, fun _ h => absurd h (by omega), fun _ => rfl⟩
  | succ n ih =>
    intro t
    by_cases hle : dtLe t now
    · obtain ⟨k, hk, heq, _, _⟩ := ih (applyDelta d t)
      refine ⟨k + 1, by omega, ?_, fun _ _ => by omega, fun hc => absurd hle hc⟩
      unfold computeLoopD
      rw [if_pos hle, heq, Function.iterate_succ_apply]
    · refine ⟨0, by omega, ?_, fun hc => absurd hc hle, fun _ => rfl⟩
      unfold computeLoopD
      rw [if_neg hle]
      rfl

lemma loopFuel_sufficient (base now : DateTime) :
    now.key < base.key + 86400 * ((loopFuel base now : Nat) : Int) := by
  unfold loopFuel
  omega

lemma compute_next_run_ok (base now : DateTime) (p : Period) (d : Delta)
    (hP : PERIODS p = some d) (hv : base.Valid) :
    ∃ res k, compute_next_run base p now = .ok res ∧ res = (applyDelta d)^[k] base ∧
      dtLt now res ∧ (dtLe base now → 1 ≤ k) ∧ (¬ dtLe base now → k = 0) := by
  obtain ⟨k, hk, heq, hk1, hk0⟩ := computeLoopD_iterate d now (loopFuel base now) base
  have hgt := computeLoopD_gt d now (PERIODS_pos p d hP) (loopFuel base now) base hv
    (loopFuel_sufficient base now)
  have hfuel : dtLe base now → 1 ≤ loopFuel base now := by
    unfold dtLe loopFuel
    omega
  refine ⟨computeLoopD d now (loopFuel base now) base, k, ?_, heq, hgt,
    fun h => hk1 h (hfuel h), hk0⟩
  unfold compute_next_run
  rw [hP]

/-- Claim C1: for every periodic rule (daily, weekly, biweekly, monthly,
quarterly) and every valid baseTime, compute_next_run(baseTime, rule, now)
returns a timestamp strictly greater than now that equals baseTime
advanced by an integer number k of successive steps of that rule, with
k ≥ 1 whenever baseTime ≤ now, and with k = 0 and the result equal to
baseTime itself whenever baseTime > now. -/
theorem compute_next_run_periodic_correct (base now : DateTime) (p : Period)
    (hv : base.Valid) (hp : p ≠ Period.one_time) :
    ∃ d res k, PERIODS p = some d ∧ compute_next_run base p now = .ok res ∧
      res = (applyDelta d)^[k] base ∧ dtLt now res ∧
      (dtLe base now → 1 ≤ k) ∧ (¬ dtLe base now → k = 0 ∧ res = base) := by
  have hex : ∃ d, PERIODS p = some d := by
    cases p
    · exact absurd rfl hp
    all_goals exact ⟨_, rfl⟩
  obtain ⟨d, hP⟩ := hex
  obtain ⟨res, k, h1, h2, h3, h4, h5⟩ := compute_next_run_ok base now p d hP hv
  refine ⟨d, res, k, hP, h1, h2, h3, h4, fun h => ⟨h5 h, ?_⟩⟩
  rw [h2, h5 h]
  rfl

/-- Witness for C1: a daily reminder whose base time 2024-05-01 10:00 lies
before now = 2024-05-03 13:00. -/
theorem compute_next_run_periodic_correct_witness :
    (⟨2024, 5, 1, 36000⟩ : DateTime).Valid ∧ Period.daily ≠ Period.one_time ∧
    (∃ d res k, PERIODS Period.daily = some d ∧
      compute_next_run ⟨2024, 5, 1, 36000⟩ Period.daily ⟨2024, 5, 3, 46800⟩ = .ok res ∧
      res = (applyDelta d)^[k] (⟨2024, 5, 1, 36000⟩ : DateTime) ∧
      dtLt ⟨2024, 5, 3, 46800⟩ res ∧
      (dtLe ⟨2024, 5, 1, 36000⟩ ⟨2024, 5, 3, 46800⟩ → 1 ≤ k) ∧
      (¬ dtLe ⟨2024, 5, 1, 36000⟩ ⟨2024, 5, 3, 46800⟩ →
        k = 0 ∧ res = ⟨2024, 5, 1, 36000⟩)) :=
  ⟨by decide, by decide,
    compute_next_run_periodic_correct ⟨2024, 5, 1, 36000⟩ ⟨2024, 5, 3, 46800⟩
      Period.daily (by decide) (by decide)⟩

/-- Claim C5: one monthly or quarterly step preserves the day of month
when the target month is long enough and otherwise clamps to the last day
of the target month; concretely, compute_next_run(2024-01-31 10:00,
monthly, now = 2024-02-01 10:00) = 2024-02-29 10:00. -/
theorem month_step_preserves_or_clamps_day (t : DateTime) (p : Period) (d : Delta)
    (hp : p = Period.monthly ∨ p = Period.quarterly) (hd : PERIODS p = some d) :
    (t.day ≤ daysInMonth (applyDelta d t).year (applyDelta d t).month →
      (applyDelta d t).day = t.day) ∧
    (daysInMonth (applyDelta d t).year (applyDelta d t).month < t.day →
      (applyDelta d t).day = daysInMonth (applyDelta d t).year (applyDelta d t).month) ∧
    compute_next_run ⟨2024, 1, 31, 36000⟩ Period.monthly ⟨2024, 2, 1, 36000⟩ =
      .ok ⟨2024, 2, 29, 36000⟩ := by
  have hmm : ∀ n : Nat,
      (t.day ≤ daysInMonth (addMonths t n).year (addMonths t n).month →
        (addMonths t n).day = t.day) ∧
      (daysInMonth (addMonths t n).year (addMonths t n).month < t.day →
        (addMonths t n).day = daysInMonth (addMonths t n).year (addMonths t n).month) := by
    intro n
    unfold addMonths
    dsimp only
    constructor <;> intro h <;> omega
  have hd2 : d = Delta.months 1 ∨ d = Delta.months 3 := by
    rcases hp with hp | hp <;> subst hp <;>
      simp only [PERIODS, Option.some.injEq] at hd
    · exact Or.inl hd.symm
    · exact Or.inr hd.symm
  rcases hd2 with hd2 | hd2 <;> subst hd2 <;>
    exact ⟨(hmm _).1, (hmm _).2, by decide⟩

/-- Witness for C5: a quarterly step from 2024-11-30 09:00 lands on
2025-02-28 (clamped), matching the clamping clauses. -/
theorem month_step_preserves_or_clamps_day_witness :
    ((Period.quarterly = Period.monthly ∨ Period.quarterly = Period.quarterly) ∧
      PERIODS Period.quarterly = some (Delta.months 3)) ∧
    (((⟨2024, 11, 30, 32400⟩ : DateTime).day ≤
        daysInMonth (applyDelta (Delta.months 3) ⟨2024, 11, 30, 32400⟩).year
          (applyDelta (Delta.months 3) ⟨2024, 11, 30, 32400⟩).month →
      (applyDelta (Delta.months 3) ⟨2024, 11, 30, 32400⟩).day =
        (⟨2024, 11, 30, 32400⟩ : DateTime).day) ∧
    (daysInMonth (applyDelta (Delta.months 3) ⟨2024, 11, 30, 32400⟩).year
        (applyDelta (Delta.months 3) ⟨2024, 11, 30, 32400⟩).month <
        (⟨2024, 11, 30, 32400⟩ : DateTime).day →
      (applyDelta (Delta.months 3) ⟨2024, 11, 30, 32400⟩).day =
        daysInMonth (applyDelta (Delta.months 3) ⟨2024, 11, 30, 32400⟩).year
          (applyDelta (Delta.months 3) ⟨2024, 11, 30, 32400⟩).month) ∧
    compute_next_run ⟨2024, 1, 31, 36000⟩ Period.monthly ⟨2024, 2, 1, 36000⟩ =
      .ok ⟨2024, 2, 29, 36000⟩) :=
  ⟨⟨Or.inr rfl, rfl⟩,
    month_step_preserves_or_clamps_day ⟨2024, 11, 30, 32400⟩ Period.quarterly
      (Delta.months 3) (Or.inr rfl) rfl⟩

/-- Counterexample to claim C6: compute_next_run raises ValueError for the
one_time rule instead of returning the base time or now (the base time
2024-01-01 00:00 is not after now = 2024-01-02 00:00, so the claim would
require the result now). -/
theorem compute_next_run_one_time_raises_cex :
    compute_next_run ⟨2024, 1, 1, 0⟩ Period.one_time ⟨2024, 1, 2, 0⟩ ≠
      Except.ok ⟨2024, 1, 2, 0⟩ ∧
    compute_next_run ⟨2024, 1, 1, 0⟩ Period.one_time ⟨2024, 1, 2, 0⟩ =
      Except.error "Unknown period: one_time" := by
  have h : compute_next_run ⟨2024, 1, 1, 0⟩ Period.one_time ⟨2024, 1, 2, 0⟩ =
      Except.error "Unknown period: one_time" := rfl
  refine ⟨?_, h⟩
  rw [h]
  intro hc
  exact Except.noConfusion hc

/-- Claim C6 (amended): the one_time early-return policy lives in
normalize_next_run, which for the one_time rule returns the start time
when it is after now and otherwise returns now, never raising; the
compute_next_run helper itself raises ValueError on the one_time rule. -/
theorem normalize_one_time_no_error (start_time now : DateTime) :
    normalize_next_run start_time Period.one_time now =
      .ok (if dtLt now start_time then start_time else now) ∧
    compute_next_run start_time Period.one_time now =
      .error "Unknown period: one_time" := by
  constructor
  · simp [normalize_next_run]
  · rfl

/-- A reminder record (models.Reminder / one row of the reminders table). -/
structure Reminder where
  id : Nat
  owner_user_id : Int
  text : String
  next_run : DateTime
  period : Period
  chat_ref : String
  status : String
  created_at : DateTime
  updated_at : DateTime
  last_sent_at : Option DateTime
deriving Repr, DecidableEq

/-- The reminder store: the rows of the reminders table in insertion
order, plus the autoincrement counter supplying the next id. -/
structure DB where
  rows : List Reminder
  nextId : Nat
deriving Repr, DecidableEq

/-- storage.get_reminder: the row with the given id, if any. -/
def get_reminder (db : DB) (reminder_id : Nat) : Option Reminder :=
  db.rows.find? (fun r => r.id == reminder_id)

/-- storage.add_reminder: insert a fresh row with status active, created_at
and updated_at set to the current UTC time and no last_sent_at; returns
the updated store and the new id (cursor.lastrowid). -/
def add_reminder (db : DB) (owner_user_id : Int) (text : String) (next_run : DateTime)
    (period : Period) (chat_ref : String) (nowUtc : DateTime) : DB × Nat :=
  let row : Reminder :=
    { id := db.nextId, owner_user_id := owner_user_id, text := text,
      next_run := next_run, period := period, chat_ref := chat_ref,
      status := "active", created_at := nowUtc, updated_at := nowUtc,
      last_sent_at := none }
  ({ rows := db.rows ++ [row], nextId := db.nextId + 1 }, db.nextId)

/-- The row transformation of one storage.update_reminder call: each
argument that is present overwrites the matching column, and updated_at
is bumped.  The status column can never be touched this way. -/
def applyUpdate (text : Option String) (next_run : Option DateTime)
    (period : Option Period) (chat_ref : Option String)
    (last_sent_at : Option DateTime) (nowUtc : DateTime) (r : Reminder) : Reminder :=
  { r with
    text := text.getD r.text,
    next_run := next_run.getD r.next_run,
    period := period.getD r.period,
    chat_ref := chat_ref.getD r.chat_ref,
    last_sent_at := match last_sent_at with
      | some v => some v
      | none => r.last_sent_at,
    updated_at := nowUtc }

/-- storage.update_reminder: a no-op when every optional field is absent
(the source returns before touching the store), otherwise updates the row
with the given id. -/
def update_reminder (db : DB) (reminder_id : Nat) (text : Option String)
    (next_run : Option DateTime) (period : Option Period) (chat_ref : Option String)
    (last_sent_at : Option DateTime) (nowUtc : DateTime) : DB :=
  if text = none ∧ next_run = none ∧ period = none ∧ chat_ref = none ∧
      last_sent_at = none then db
  else
    { db with rows := db.rows.map (fun r =>
        if r.id == reminder_id then
          applyUpdate text next_run period chat_ref last_sent_at nowUtc r
        else r) }

/-- storage.deactivate_reminder: set status to inactive and bump
updated_at on the row with the given id. -/
def deactivate_reminder (db : DB) (reminder_id : Nat) (nowUtc : DateTime) : DB :=
  { db with rows := db.rows.map (fun r =>
      if r.id == reminder_id then { r with status := "inactive", updated_at := nowUtc }
      else r) }

/-- The timer table of the scheduling engine: one entry per armed job,
keyed by reminder id (the job id string reminder_N is in bijection with
the id), carrying the run date. -/
abbrev Jobs := List (Nat × DateTime)

/-- Run date of the armed timer for an id, if any (scheduler.get_job). -/
def getJob (jobs : Jobs) (reminder_id : Nat) : Option DateTime :=
  (jobs.find? (fun j => j.1 == reminder_id)).map Prod.snd

/-- Removal of the timer of an id (scheduler.remove_job). -/
def removeJob (jobs : Jobs) (reminder_id : Nat) : Jobs :=
  jobs.filter (fun j => j.1 != reminder_id)

/-- scheduler.unschedule_reminder: remove the job only if it exists. -/
def unschedule_reminder (jobs : Jobs) (reminder_id : Nat) : Jobs :=
  if (getJob jobs reminder_id).isSome then removeJob jobs reminder_id else jobs

/-- scheduler.schedule_reminder: add_job with replace_existing, a date
trigger at reminder.next_run. -/
def schedule_reminder (jobs : Jobs) (r : Reminder) : Jobs :=
  removeJob jobs r.id ++ [(r.id, r.next_run)]

/-- Combined system state: the durable store plus the in-process timer
table. -/
structure SysState where
  db : DB
  jobs : Jobs
deriving Repr, DecidableEq

/-- Observable effects of one operation, in the order the source performs
them: store writes, one delivery attempt, timer removal and timer
arming. -/
inductive Effect
  | dbUpdate (id : Nat)
  | dbDeactivate (id : Nat)
  | send (chat_ref text : String)
  | disarm (id : Nat)
  | arm (id : Nat) (run_date : DateTime)
deriving Repr, DecidableEq

/-- scheduler.send_reminder, the timer fire handler.  sendOk is the
outcome of the bot.send_message transport call, now is the local
timestamp taken right after that call, nowUtc the UTC timestamp the
storage layer stamps into updated_at.  Returns the new state and the
effect trace. -/
def send_reminder (reminder_id : Nat) (sendOk : Bool) (now nowUtc : DateTime)
    (s : SysState) : SysState × List Effect :=
  match get_reminder s.db reminder_id with
  | none => (s, [])
  | some r =>
    if r.status ≠ "active" then (s, [])
    else
      let db1 := if sendOk then
          update_reminder s.db reminder_id none none none none (some now) nowUtc
        else s.db
      let eff1 := Effect.send r.chat_ref r.text ::
        (if sendOk then [Effect.dbUpdate reminder_id] else [])
      if r.period = Period.one_time then
        ({ db := deactivate_reminder db1 reminder_id nowUtc, jobs := s.jobs },
          eff1 ++ [Effect.dbDeactivate reminder_id])
      else
        match compute_next_run r.next_run r.period now with
        | .error _ => ({ db := db1, jobs := s.jobs }, eff1)
        | .ok nr =>
          let db2 := update_reminder db1 reminder_id none (some nr) none none none nowUtc
          match get_reminder db2 reminder_id with
          | none => ({ db := db2, jobs := s.jobs },
              eff1 ++ [Effect.dbUpdate reminder_id])
          | some refreshed =>
            ({ db := db2, jobs := schedule_reminder s.jobs refreshed },
              eff1 ++ [Effect.dbUpdate reminder_id,
                Effect.arm reminder_id refreshed.next_run])

/-- The delete branch of bot.edit_confirm: deactivate the row in the
store, then unschedule the timer (in that source order). -/
def delete_op (s : SysState) (reminder_id : Nat) (nowUtc : DateTime) :
    SysState × List Effect :=
  let db1 := deactivate_reminder s.db reminder_id nowUtc
  let disarmEff := if (getJob s.jobs reminder_id).isSome
    then [Effect.disarm reminder_id] else []
  ({ db := db1, jobs := unschedule_reminder s.jobs reminder_id },
    Effect.dbDeactivate reminder_id :: disarmEff)

/-- Which field a save in bot.edit_confirm writes, with the already
validated new value. -/
inductive EditField
  | ftext (v : String)
  | fchat (v : String)
  | fdate (v : DateTime)
  | fperiod (v : Period)
deriving Repr, DecidableEq

/-- The save branch of bot.edit_confirm: re-read the reminder, build
update_kwargs for the edited field (dates and rule changes renormalise
next_run), write the store, unconditionally unschedule, re-read and
re-arm. -/
def edit_confirm_save (s : SysState) (reminder_id : Nat) (f : EditField)
    (now nowUtc : DateTime) : SysState × List Effect :=
  match get_reminder s.db reminder_id with
  | none => (s, [])
  | some r =>
    let kw : Except String
        (Option String × Option DateTime × Option Period × Option String) :=
      match f with
      | .ftext v => .ok (some v, none, none, none)
      | .fchat v => .ok (none, none, none, some v)
      | .fdate v =>
        match normalize_next_run v r.period now with
        | .error e => .error e
        | .ok nr => .ok (none, some nr, none, none)
      | .fperiod v =>
        match normalize_next_run r.next_run v now with
        | .error e => .error e
        | .ok nr => .ok (none, some nr, some v, none)
    match kw with
    | .error _ => (s, [])
    | .ok (t, nr, p, c) =>
      let db1 := update_reminder s.db reminder_id t nr p c none nowUtc
      let disarmEff := if (getJob s.jobs reminder_id).isSome
        then [Effect.disarm reminder_id] else []
      let jobs1 := unschedule_reminder s.jobs reminder_id
      match get_reminder db1 reminder_id with
      | none => ({ db := db1, jobs := jobs1 },
          Effect.dbUpdate reminder_id :: disarmEff)
      | some refreshed =>
        ({ db := db1, jobs := schedule_reminder jobs1 refreshed },
          Effect.dbUpdate reminder_id :: disarmEff ++
            [Effect.arm reminder_id refreshed.next_run])

/-- The operations that can touch a reminder after it exists: a fresh
insertion, a field edit, a delete, and a timer fire. -/
inductive Op
  | opAdd (owner : Int) (text : String) (next_run : DateTime) (period : Period)
      (chat_ref : String) (nowUtc : DateTime)
  | opEdit (id : Nat) (f : EditField) (now nowUtc : DateTime)
  | opDelete (id : Nat) (nowUtc : DateTime)
  | opFire (id : Nat) (sendOk : Bool) (now nowUtc : DateTime)

/-- State transition of each operation. -/
def step : Op → SysState → SysState
  | .opAdd o t nr p c u, s => { s with db := (add_reminder s.db o t nr p c u).1 }
  | .opEdit i f n u, s => (edit_confirm_save s i f n u).1
  | .opDelete i u, s => (delete_op s i u).1
  | .opFire i ok n u, s => (send_reminder i ok n u s).1

lemma applyUpdate_keeps_id (t : Option String) (nr : Option DateTime) (p : Option Period)
    (c : Option String) (ls : Option DateTime) (u : DateTime) (r : Reminder) :
    (applyUpdate t nr p c ls u r).id = r.id := rfl

lemma applyUpdate_keeps_status (t : Option String) (nr : Option DateTime)
    (p : Option Period) (c : Option String) (ls : Option DateTime) (u : DateTime)
    (r : Reminder) : (applyUpdate t nr p c ls u r).status = r.status := rfl

lemma find?_map_keepId (g : Reminder → Reminder) (hg : ∀ x, (g x).id = x.id) (i : Nat) :
    ∀ l : List Reminder,
      List.find? (fun x => x.id == i) (l.map g) =
        (List.find? (fun x => x.id == i) l).map g := by
  intro l
  induction l with
  | nil => rfl
  | cons a l ih =>
    have hga : ((g a).id == i) = (a.id == i) := by rw [hg a]
    by_cases h : (a.id == i) = true
    · have e1 : List.find? (fun x => x.id == i) (List.map g (a :: l)) = some (g a) := by
        rw [List.map_cons]
        exact List.find?_cons_of_pos _ (by show ((g a).id == i) = true; rw [hga]; exact h)
      have e2 : List.find? (fun x => x.id == i) (a :: l) = some a :=
        List.find?_cons_of_pos _ h
      rw [e1, e2]
      rfl
    · have e1 : List.find? (fun x => x.id == i) (List.map g (a :: l)) =
          List.find? (fun x => x.id == i) (List.map g l) := by
        rw [List.map_cons]
        exact List.find?_cons_of_neg _ (by show ¬((g a).id == i) = true; rw [hga]; exact h)
      have e2 : List.find? (fun x => x.id == i) (a :: l) =
          List.find? (fun x => x.id == i) l :=
        List.find?_cons_of_neg _ h
      rw [e1, e2, ih]

lemma get_reminder_map_rows (db : DB) (g : Reminder → Reminder)
    (hg : ∀ x, (g x).id = x.id) (i : Nat) :
    get_reminder { rows := db.rows.map g, nextId := db.nextId } i =
      (get_reminder db i).map g := by
  unfold get_reminder
  exact find?_map_keepId g hg i db.rows

lemma get_reminder_found_beq (db : DB) (i : Nat) (r : Reminder)
    (hget : get_reminder db i = some r) : (r.id == i) = true := by
  unfold get_reminder at hget
  have h2 := List.find?_some hget
  exact h2

lemma get_reminder_found_id (db : DB) (i : Nat) (r : Reminder)
    (hget : get_reminder db i = some r) : r.id = i := by
  have h2 := get_reminder_found_beq db i r hget
  simpa using h2

lemma update_guard_keeps_id (i : Nat) (t : Option String) (nr : Option DateTime)
    (p : Option Period) (c : Option String) (ls : Option DateTime) (u : DateTime) :
    ∀ x : Reminder,
      ((fun r => if r.id == i then applyUpdate t nr p c ls u r else r) x).id = x.id := by
  intro x
  by_cases hx : (x.id == i) = true <;> simp [hx, applyUpdate]

lemma deactivate_guard_keeps_id (i : Nat) (u : DateTime) :
    ∀ x : Reminder,
      ((fun r => if r.id == i then
          { r with status := "inactive", updated_at := u } else r) x).id = x.id := by
  intro x
  by_cases hx : (x.id == i) = true <;> simp [hx]

lemma get_reminder_update_self (db : DB) (i : Nat) (t : Option String)
    (nr : Option DateTime) (p : Option Period) (c : Option String)
    (ls : Option DateTime) (u : DateTime) (r : Reminder)
    (hget : get_reminder db i = some r)
    (hne : ¬(t = none ∧ nr = none ∧ p = none ∧ c = none ∧ ls = none)) :
    get_reminder (update_reminder db i t nr p c ls u) i =
      some (applyUpdate t nr p c ls u r) := by
  have hid := get_reminder_found_beq db i r hget
  have hmap := get_reminder_map_rows db
    (fun r => if r.id == i then applyUpdate t nr p c ls u r else r)
    (update_guard_keeps_id i t nr p c ls u) i
  unfold update_reminder
  rw [if_neg hne, hmap, hget]
  have hred : Option.map (fun r => if r.id == i then applyUpdate t nr p c ls u r else r)
      (some r) = some (if r.id == i then applyUpdate t nr p c ls u r else r) := rfl
  rw [hred, if_pos hid]

lemma get_reminder_deactivate_self (db : DB) (i : Nat) (u : DateTime) (r : Reminder)
    (hget : get_reminder db i = some r) :
    get_reminder (deactivate_reminder db i u) i =
      some { r with status := "inactive", updated_at := u } := by
  have hid := get_reminder_found_beq db i r hget
  have hmap := get_reminder_map_rows db
    (fun r => if r.id == i then { r with status := "inactive", updated_at := u } else r)
    (deactivate_guard_keeps_id i u) i
  unfold deactivate_reminder
  rw [hmap, hget]
  have hred : Option.map
      (fun r => if r.id == i then { r with status := "inactive", updated_at := u } else r)
      (some r) =
      some (if r.id == i then { r with status := "inactive", updated_at := u } else r) :=
    rfl
  rw [hred, if_pos hid]

lemma get_reminder_update_keep (db : DB) (i : Nat) (t : Option String)
    (nr : Option DateTime) (p : Option Period) (c : Option String)
    (ls : Option DateTime) (u : DateTime) (j : Nat) (r2 : Reminder)
    (hget : get_reminder db j = some r2) :
    ∃ r3, get_reminder (update_reminder db i t nr p c ls u) j = some r3 ∧
      r3.status = r2.status := by
  have hmap := get_reminder_map_rows db
    (fun r => if r.id == i then applyUpdate t nr p c ls u r else r)
    (update_guard_keeps_id i t nr p c ls u) j
  unfold update_reminder
  split
  · exact ⟨r2, hget, rfl⟩
  · rw [hmap, hget]
    refine ⟨if r2.id == i then applyUpdate t nr p c ls u r2 else r2, rfl, ?_⟩
    by_cases hx : (r2.id == i) = true
    · rw [if_pos hx]
      exact applyUpdate_keeps_status t nr p c ls u r2
    · rw [if_neg hx]

lemma get_reminder_deactivate_keep (db : DB) (i : Nat) (u : DateTime) (j : Nat)
    (r2 : Reminder) (hget : get_reminder db j = some r2)
    (hs : r2.status = "inactive") :
    ∃ r3, get_reminder (deactivate_reminder db i u) j = some r3 ∧
      r3.status = "inactive" := by
  have hmap := get_reminder_map_rows db
    (fun r => if r.id == i then { r with status := "inactive", updated_at := u } else r)
    (deactivate_guard_keeps_id i u) j
  unfold deactivate_reminder
  rw [hmap, hget]
  refine ⟨if r2.id == i then { r2 with status := "inactive", updated_at := u } else r2,
    rfl, ?_⟩
  by_cases hx : (r2.id == i) = true
  · rw [if_pos hx]
  · rw [if_neg hx]
    exact hs

lemma get_reminder_add_keep (db : DB) (o : Int) (t : String) (nr : DateTime)
    (p : Period) (c : String) (u : DateTime) (j : Nat) (r2 : Reminder)
    (hget : get_reminder db j = some r2) :
    get_reminder (add_reminder db o t nr p c u).1 j = some r2 := by
  unfold get_reminder at hget
  simp only [add_reminder, get_reminder]
  rw [List.find?_append, hget]
  rfl

/-- Claim C2: when the fire handler finds no record for the id, or a
record whose status is not active, it stops: no delivery attempt, no
store write, no timer change, and an empty effect trace. -/
theorem fire_missing_or_inactive_noop (s : SysState) (reminder_id : Nat)
    (sendOk : Bool) (now nowUtc : DateTime)
    (h : Option.all (fun r => r.status != "active")
      (get_reminder s.db reminder_id) = true) :
    send_reminder reminder_id sendOk now nowUtc s = (s, []) := by
  unfold send_reminder
  cases hg : get_reminder s.db reminder_id with
  | none => rfl
  | some r =>
    rw [hg] at h
    have h2 : r.status ≠ "active" := by simpa [Option.all] using h
    dsimp only
    rw [if_pos h2]

/-- The store of claim C2's witness: one inactive reminder with id 1 and
an armed stale timer. -/
def rNoop : Reminder :=
  { id := 1, owner_user_id := 7, text := "standup", next_run := ⟨2024, 6, 1, 36000⟩,
    period := Period.weekly, chat_ref := "@team", status := "inactive",
    created_at := ⟨2024, 5, 1, 0⟩, updated_at := ⟨2024, 5, 1, 0⟩, last_sent_at := none }

def sNoop : SysState :=
  { db := { rows := [rNoop], nextId := 2 }, jobs := [(1, ⟨2024, 6, 1, 36000⟩)] }

/-- Witness for C2: firing id 1 of sNoop (status inactive) is a no-op. -/
theorem fire_missing_or_inactive_noop_witness :
    Option.all (fun r => r.status != "active") (get_reminder sNoop.db 1) = true ∧
    send_reminder 1 true ⟨2024, 6, 1, 36005⟩ ⟨2024, 6, 1, 25205⟩ sNoop = (sNoop, []) :=
  ⟨by decide,
    fire_missing_or_inactive_noop sNoop 1 true ⟨2024, 6, 1, 36005⟩ ⟨2024, 6, 1, 25205⟩
      (by decide)⟩

/-- Claim C3: a fire of an active recurring reminder advances next_run to
compute_next_run(old next_run, rule, now) and re-arms the timer at the
new next_run whether or not the transport call succeeds; last_sent_at is
untouched on failure and set to now on success, and the delivery attempt
happens in both cases. -/
theorem fire_recurring_advances_and_rearms (s : SysState) (reminder_id : Nat)
    (r : Reminder) (nr : DateTime) (sendOk : Bool) (now nowUtc : DateTime)
    (hget : get_reminder s.db reminder_id = some r) (hact : r.status = "active")
    (hper : r.period ≠ Period.one_time)
    (hcnr : compute_next_run r.next_run r.period now = .ok nr) :
    get_reminder (send_reminder reminder_id sendOk now nowUtc s).1.db reminder_id =
      some { r with next_run := nr, updated_at := nowUtc, last_sent_at := if sendOk then some now else r.last_sent_at } ∧
    (send_reminder reminder_id sendOk now nowUtc s).1.jobs =
      removeJob s.jobs reminder_id ++ [(reminder_id, nr)] ∧
    (send_reminder reminder_id sendOk now nowUtc s).2 =
      Effect.send r.chat_ref r.text ::
        ((if sendOk then [Effect.dbUpdate reminder_id] else []) ++
          [Effect.dbUpdate reminder_id, Effect.arm reminder_id nr]) := by
  have hid : r.id = reminder_id := get_reminder_found_id s.db reminder_id r hget
  have hst : ¬ r.status ≠ "active" := fun hc => hc hact
  cases sendOk
  case false =>
    have h2 := get_reminder_update_self s.db reminder_id none (some nr) none none none
      nowUtc r hget (by simp)
    unfold send_reminder
    rw [hget]
    dsimp only
    rw [if_neg hst]
    simp only [Bool.false_eq_true, if_false]
    rw [if_neg hper, hcnr]
    dsimp only
    rw [h2]
    dsimp only
    refine ⟨?_, ?_, ?_⟩
    · rw [h2]
      rfl
    · unfold schedule_reminder
      have hid2 : (applyUpdate none (some nr) none none none nowUtc r).id = reminder_id := by
        rw [applyUpdate_keeps_id]
        exact hid
      rw [hid2]
      rfl
    · rfl
  case true =>
    have h1 := get_reminder_update_self s.db reminder_id none none none none (some now)
      nowUtc r hget (by simp)
    have h2 := get_reminder_update_self
      (update_reminder s.db reminder_id none none none none (some now) nowUtc)
      reminder_id none (some nr) none none none nowUtc
      (applyUpdate none none none none (some now) nowUtc r) h1 (by simp)
    unfold send_reminder
    rw [hget]
    dsimp only
    rw [if_neg hst]
    simp only [if_true]
    rw [if_neg hper, hcnr]
    dsimp only
    rw [h2]
    dsimp only
    refine ⟨?_, ?_, ?_⟩
    · rw [h2]
      rfl
    · unfold schedule_reminder
      have hid2 : (applyUpdate none (some nr) none none none nowUtc
          (applyUpdate none none none none (some now) nowUtc r)).id = reminder_id := by
        rw [applyUpdate_keeps_id, applyUpdate_keeps_id]
        exact hid
      rw [hid2]
      rfl
    · rfl

/-- The store of the C3 witness: one active weekly reminder with id 1,
armed at its next_run. -/
def rFire : Reminder :=
  { id := 1, owner_user_id := 7, text := "water plants", next_run := ⟨2024, 6, 1, 36000⟩,
    period := Period.weekly, chat_ref := "@garden", status := "active",
    created_at := ⟨2024, 5, 1, 0⟩, updated_at := ⟨2024, 5, 1, 0⟩, last_sent_at := none }

def sFire : SysState :=
  { db := { rows := [rFire], nextId := 2 }, jobs := [(1, ⟨2024, 6, 1, 36000⟩)] }

/-- Witness for C3: a failed weekly delivery at 2024-06-01 10:00:05 moves
next_run from 2024-06-01 10:00 to 2024-06-08 10:00, leaves last_sent_at
unset, and re-arms the timer for the new date. -/
theorem fire_recurring_advances_and_rearms_witness :
    get_reminder (send_reminder 1 false ⟨2024, 6, 1, 36005⟩ ⟨2024, 6, 1, 25205⟩ sFire).1.db 1 =
      some { rFire with next_run := ⟨2024, 6, 8, 36000⟩, updated_at := ⟨2024, 6, 1, 25205⟩, last_sent_at := if false then some ⟨2024, 6, 1, 36005⟩ else rFire.last_sent_at } ∧
    (send_reminder 1 false ⟨2024, 6, 1, 36005⟩ ⟨2024, 6, 1, 25205⟩ sFire).1.jobs =
      removeJob sFire.jobs 1 ++ [(1, ⟨2024, 6, 8, 36000⟩)] ∧
    (send_reminder 1 false ⟨2024, 6, 1, 36005⟩ ⟨2024, 6, 1, 25205⟩ sFire).2 =
      Effect.send rFire.chat_ref rFire.text ::
        ((if false then [Effect.dbUpdate 1] else []) ++
          [Effect.dbUpdate 1, Effect.arm 1 ⟨2024, 6, 8, 36000⟩]) :=
  fire_recurring_advances_and_rearms sFire 1 rFire ⟨2024, 6, 8, 36000⟩ false
    ⟨2024, 6, 1, 36005⟩ ⟨2024, 6, 1, 25205⟩ (by decide) (by decide) (by decide) (by decide)

lemma send_reminder_preserves_inactive (reminder_id : Nat) (sendOk : Bool)
    (now nowUtc : DateTime) (s : SysState) (j : Nat) (r2 : Reminder)
    (hget2 : get_reminder s.db j = some r2) (hs : r2.status = "inactive") :
    ∃ r3, get_reminder (send_reminder reminder_id sendOk now nowUtc s).1.db j = some r3 ∧
      r3.status = "inactive" := by
  unfold send_reminder
  cases hg : get_reminder s.db reminder_id with
  | none => exact ⟨r2, hget2, hs⟩
  | some r =>
    dsimp only
    by_cases hst : r.status ≠ "active"
    · rw [if_pos hst]
      exact ⟨r2, hget2, hs⟩
    · rw [if_neg hst]
      cases sendOk
      · -- sendOk = false
        simp only [Bool.false_eq_true, if_false]
        by_cases hper : r.period = Period.one_time
        · rw [if_pos hper]
          exact get_reminder_deactivate_keep s.db reminder_id nowUtc j r2 hget2 hs
        · rw [if_neg hper]
          cases hc : compute_next_run r.next_run r.period now with
          | error e =>
            exact ⟨r2, hget2, hs⟩
          | ok nr =>
            dsimp only
            obtain ⟨r3, h3, hs3⟩ := get_reminder_update_keep s.db reminder_id none
              (some nr) none none none nowUtc j r2 hget2
            have hs32 : r3.status = "inactive" := by rw [hs3, hs]
            cases hgr : get_reminder (update_reminder s.db reminder_id none (some nr)
                none none none nowUtc) reminder_id with
            | none =>
              dsimp only
              exact ⟨r3, h3, hs32⟩
            | some refreshed =>
              dsimp only
              exact ⟨r3, h3, hs32⟩
      · -- sendOk = true
        simp only [if_true]
        obtain ⟨r2b, h2b, hs2b⟩ := get_reminder_update_keep s.db reminder_id none none
          none none (some now) nowUtc j r2 hget2
        have hs2b2 : r2b.status = "inactive" := by rw [hs2b, hs]
        by_cases hper : r.period = Period.one_time
        · rw [if_pos hper]
          exact get_reminder_deactivate_keep _ reminder_id nowUtc j r2b h2b hs2b2
        · rw [if_neg hper]
          cases hc : compute_next_run r.next_run r.period now with
          | error e =>
            exact ⟨r2b, h2b, hs2b2⟩
          | ok nr =>
            dsimp only
            obtain ⟨r3, h3, hs3⟩ := get_reminder_update_keep
              (update_reminder s.db reminder_id none none none none (some now) nowUtc)
              reminder_id none (some nr) none none none nowUtc j r2b h2b
            have hs32 : r3.status = "inactive" := by rw [hs3, hs2b2]
            cases hgr : get_reminder (update_reminder
                (update_reminder s.db reminder_id none none none none (some now) nowUtc)
                reminder_id none (some nr) none none none nowUtc) reminder_id with
            | none =>
              dsimp only
              exact ⟨r3, h3, hs32⟩
            | some refreshed =>
              dsimp only
              exact ⟨r3, h3, hs32⟩

lemma edit_confirm_save_preserves_inactive (s : SysState) (reminder_id : Nat)
    (f : EditField) (now nowUtc : DateTime) (j : Nat) (r2 : Reminder)
    (hget2 : get_reminder s.db j = some r2) (hs : r2.status = "inactive") :
    ∃ r3, get_reminder (edit_confirm_save s reminder_id f now nowUtc).1.db j = some r3 ∧
      r3.status = "inactive" := by
  unfold edit_confirm_save
  cases hg : get_reminder s.db reminder_id with
  | none => exact ⟨r2, hget2, hs⟩
  | some r =>
    dsimp only
    cases f with
    | ftext v =>
      dsimp only
      obtain ⟨r3, h3, hs3⟩ := get_reminder_update_keep s.db reminder_id (some v) none
        none none none nowUtc j r2 hget2
      have hs32 : r3.status = "inactive" := by rw [hs3, hs]
      cases hgr : get_reminder (update_reminder s.db reminder_id (some v) none none
          none none nowUtc) reminder_id with
      | none => dsimp only; exact ⟨r3, h3, hs32⟩
      | some refreshed => dsimp only; exact ⟨r3, h3, hs32⟩
    | fchat v =>
      dsimp only
      obtain ⟨r3, h3, hs3⟩ := get_reminder_update_keep s.db reminder_id none none
        none (some v) none nowUtc j r2 hget2
      have hs32 : r3.status = "inactive" := by rw [hs3, hs]
      cases hgr : get_reminder (update_reminder s.db reminder_id none none none
          (some v) none nowUtc) reminder_id with
      | none => dsimp only; exact ⟨r3, h3, hs32⟩
      | some refreshed => dsimp only; exact ⟨r3, h3, hs32⟩
    | fdate v =>
      dsimp only
      cases hn : normalize_next_run v r.period now with
      | error e => dsimp only; exact ⟨r2, hget2, hs⟩
      | ok nr =>
        dsimp only
        obtain ⟨r3, h3, hs3⟩ := get_reminder_update_keep s.db reminder_id none (some nr)
          none none none nowUtc j r2 hget2
        have hs32 : r3.status = "inactive" := by rw [hs3, hs]
        cases hgr : get_reminder (update_reminder s.db reminder_id none (some nr) none
            none none nowUtc) reminder_id with
        | none => dsimp only; exact ⟨r3, h3, hs32⟩
        | some refreshed => dsimp only; exact ⟨r3, h3, hs32⟩
    | fperiod v =>
      dsimp only
      cases hn : normalize_next_run r.next_run v now with
      | error e => dsimp only; exact ⟨r2, hget2, hs⟩
      | ok nr =>
        dsimp only
        obtain ⟨r3, h3, hs3⟩ := get_reminder_update_keep s.db reminder_id none (some nr)
          (some v) none none nowUtc j r2 hget2
        have hs32 : r3.status = "inactive" := by rw [hs3, hs]
        cases hgr : get_reminder (update_reminder s.db reminder_id none (some nr)
            (some v) none none nowUtc) reminder_id with
        | none => dsimp only; exact ⟨r3, h3, hs32⟩
        | some refreshed => dsimp only; exact ⟨r3, h3, hs32⟩

lemma delete_op_preserves_inactive (s : SysState) (reminder_id : Nat)
    (nowUtc : DateTime) (j : Nat) (r2 : Reminder)
    (hget2 : get_reminder s.db j = some r2) (hs : r2.status = "inactive") :
    ∃ r3, get_reminder (delete_op s reminder_id nowUtc).1.db j = some r3 ∧
      r3.status = "inactive" := by
  unfold delete_op
  dsimp only
  exact get_reminder_deactivate_keep s.db reminder_id nowUtc j r2 hget2 hs

lemma step_preserves_inactive (op : Op) (s : SysState) (j : Nat) (r2 : Reminder)
    (hget2 : get_reminder s.db j = some r2) (hs : r2.status = "inactive") :
    ∃ r3, get_reminder (step op s).db j = some r3 ∧ r3.status = "inactive" := by
  cases op with
  | opAdd o t nr p c u =>
    exact ⟨r2, get_reminder_add_keep s.db o t nr p c u j r2 hget2, hs⟩
  | opEdit i f n u => exact edit_confirm_save_preserves_inactive s i f n u j r2 hget2 hs
  | opDelete i u => exact delete_op_preserves_inactive s i u j r2 hget2 hs
  | opFire i ok n u => exact send_reminder_preserves_inactive i ok n u s j r2 hget2 hs

/-- Claim C4: an active one_time reminder, once fired, is inactive in the
store, the handler arms no new timer (the timer table is untouched) and
this holds for delivery success and failure alike; moreover an inactive
reminder stays inactive under every operation of the system. -/
theorem one_time_fire_deactivates_and_inactive_is_final (s : SysState)
    (reminder_id : Nat) (r : Reminder) (sendOk : Bool) (now nowUtc : DateTime)
    (op : Op) (s2 : SysState) (j : Nat) (r2 : Reminder)
    (hget : get_reminder s.db reminder_id = some r) (hact : r.status = "active")
    (hone : r.period = Period.one_time)
    (hget2 : get_reminder s2.db j = some r2) (hin2 : r2.status = "inactive") :
    (∃ r1, get_reminder (send_reminder reminder_id sendOk now nowUtc s).1.db reminder_id =
        some r1 ∧ r1.status = "inactive") ∧
    (send_reminder reminder_id sendOk now nowUtc s).1.jobs = s.jobs ∧
    (send_reminder reminder_id sendOk now nowUtc s).2 =
      (Effect.send r.chat_ref r.text ::
        (if sendOk then [Effect.dbUpdate reminder_id] else [])) ++
        [Effect.dbDeactivate reminder_id] ∧
    (∃ r3, get_reminder (step op s2).db j = some r3 ∧ r3.status = "inactive") := by
  have hst : ¬ r.status ≠ "active" := fun hc => hc hact
  cases sendOk
  · have hfire : send_reminder reminder_id false now nowUtc s =
        ({ db := deactivate_reminder s.db reminder_id nowUtc, jobs := s.jobs },
          (Effect.send r.chat_ref r.text :: ([] : List Effect)) ++
            [Effect.dbDeactivate reminder_id]) := by
      unfold send_reminder
      rw [hget]
      dsimp only
      rw [if_neg hst]
      simp only [Bool.false_eq_true, if_false]
      rw [if_pos hone]
    rw [hfire]
    exact ⟨⟨{ r with status := "inactive", updated_at := nowUtc },
        get_reminder_deactivate_self s.db reminder_id nowUtc r hget, rfl⟩,
      rfl, rfl, step_preserves_inactive op s2 j r2 hget2 hin2⟩
  · have h1 := get_reminder_update_self s.db reminder_id none none none none (some now)
      nowUtc r hget (by simp)
    have hfire : send_reminder reminder_id true now nowUtc s =
        ({ db := deactivate_reminder (update_reminder s.db reminder_id none none none
              none (some now) nowUtc) reminder_id nowUtc, jobs := s.jobs },
          (Effect.send r.chat_ref r.text :: [Effect.dbUpdate reminder_id]) ++
            [Effect.dbDeactivate reminder_id]) := by
      unfold send_reminder
      rw [hget]
      dsimp only
      rw [if_neg hst]
      simp only [if_true]
      rw [if_pos hone]
    rw [hfire]
    refine ⟨⟨{ applyUpdate none none none none (some now) nowUtc r with
        status := "inactive", updated_at := nowUtc }, ?_, rfl⟩,
      rfl, rfl, step_preserves_inactive op s2 j r2 hget2 hin2⟩
    exact get_reminder_deactivate_self _ reminder_id nowUtc _ h1

/-- The store of the C4 witness: an active one_time reminder with id 2,
and a second state holding an already-inactive reminder with id 5. -/
def rOnce : Reminder :=
  { id := 2, owner_user_id := 9, text := "pay rent", next_run := ⟨2024, 7, 1, 28800⟩,
    period := Period.one_time, chat_ref := "-100123", status := "active",
    created_at := ⟨2024, 6, 1, 0⟩, updated_at := ⟨2024, 6, 1, 0⟩, last_sent_at := none }

def sOnce : SysState := { db := { rows := [rOnce], nextId := 3 }, jobs := [] }

def rGone : Reminder :=
  { id := 5, owner_user_id := 9, text := "old", next_run := ⟨2024, 3, 1, 0⟩,
    period := Period.daily, chat_ref := "@x1x2", status := "inactive",
    created_at := ⟨2024, 2, 1, 0⟩, updated_at := ⟨2024, 3, 1, 0⟩, last_sent_at := none }

def sGone : SysState := { db := { rows := [rGone], nextId := 6 }, jobs := [] }

/-- Witness for C4: a successful one_time delivery for id 2 leaves it
inactive with the timer table untouched, and a delete on the inactive
id 5 keeps it inactive. -/
theorem one_time_fire_deactivates_and_inactive_is_final_witness :
    (∃ r1, get_reminder (send_reminder 2 true ⟨2024, 7, 1, 28805⟩ ⟨2024, 7, 1, 18005⟩ sOnce).1.db 2 =
        some r1 ∧ r1.status = "inactive") ∧
    (send_reminder 2 true ⟨2024, 7, 1, 28805⟩ ⟨2024, 7, 1, 18005⟩ sOnce).1.jobs = sOnce.jobs ∧
    (send_reminder 2 true ⟨2024, 7, 1, 28805⟩ ⟨2024, 7, 1, 18005⟩ sOnce).2 =
      (Effect.send rOnce.chat_ref rOnce.text :: (if true then [Effect.dbUpdate 2] else [])) ++
        [Effect.dbDeactivate 2] ∧
    (∃ r3, get_reminder (step (Op.opDelete 5 ⟨2024, 7, 2, 0⟩) sGone).db 5 = some r3 ∧
      r3.status = "inactive") :=
  one_time_fire_deactivates_and_inactive_is_final sOnce 2 rOnce true
    ⟨2024, 7, 1, 28805⟩ ⟨2024, 7, 1, 18005⟩ (Op.opDelete 5 ⟨2024, 7, 2, 0⟩) sGone 5 rGone
    (by decide) (by decide) (by decide) (by decide) (by decide)

lemma removeJob_of_none (jobs : Jobs) (i : Nat) (h : getJob jobs i = none) :
    removeJob jobs i = jobs := by
  unfold getJob at h
  rw [Option.map_eq_none'] at h
  rw [List.find?_eq_none] at h
  unfold removeJob
  apply List.filter_eq_self.mpr
  intro a ha
  have h2 := h a ha
  simpa using h2

lemma unschedule_eq_removeJob (jobs : Jobs) (i : Nat) :
    unschedule_reminder jobs i = removeJob jobs i := by
  unfold unschedule_reminder
  split
  · rfl
  · rename_i h
    rw [Option.isSome_iff_exists] at h
    push_neg at h
    have h0 : getJob jobs i = none := by
      cases hj : getJob jobs i with
      | none => rfl
      | some v => exact absurd hj (h v)
    rw [removeJob_of_none jobs i h0]

lemma removeJob_idem (jobs : Jobs) (i : Nat) :
    removeJob (removeJob jobs i) i = removeJob jobs i := by
  unfold removeJob
  rw [List.filter_filter]
  simp only [Bool.and_self]

lemma getJob_removeJob (jobs : Jobs) (i : Nat) :
    getJob (removeJob jobs i) i = none := by
  unfold getJob
  rw [Option.map_eq_none']
  apply List.find?_eq_none.mpr
  intro x hx
  have h2 := (List.mem_filter.mp hx).2
  simpa using h2

/-- Claim C9 (amended): a text or destination edit changes only the edited
field plus updated_at in the store - next_run, recurrence_rule and status
stay as they were - but the timer is not left alone: the operation
unconditionally disarms and re-arms it, the trace ends with an arm effect
at the unchanged next_run, and the timer table afterwards holds exactly
one entry for the id at that next_run. -/
theorem edit_payload_updates_store_and_rearms (s : SysState) (reminder_id : Nat)
    (r : Reminder) (v : String) (now nowUtc : DateTime)
    (hget : get_reminder s.db reminder_id = some r) :
    (get_reminder (edit_confirm_save s reminder_id (EditField.ftext v) now nowUtc).1.db
        reminder_id = some { r with text := v, updated_at := nowUtc } ∧
      (edit_confirm_save s reminder_id (EditField.ftext v) now nowUtc).1.jobs =
        removeJob s.jobs reminder_id ++ [(reminder_id, r.next_run)] ∧
      (edit_confirm_save s reminder_id (EditField.ftext v) now nowUtc).2 =
        Effect.dbUpdate reminder_id ::
          (if (getJob s.jobs reminder_id).isSome then [Effect.disarm reminder_id] else []) ++
          [Effect.arm reminder_id r.next_run]) ∧
    (get_reminder (edit_confirm_save s reminder_id (EditField.fchat v) now nowUtc).1.db
        reminder_id = some { r with chat_ref := v, updated_at := nowUtc } ∧
      (edit_confirm_save s reminder_id (EditField.fchat v) now nowUtc).1.jobs =
        removeJob s.jobs reminder_id ++ [(reminder_id, r.next_run)] ∧
      (edit_confirm_save s reminder_id (EditField.fchat v) now nowUtc).2 =
        Effect.dbUpdate reminder_id ::
          (if (getJob s.jobs reminder_id).isSome then [Effect.disarm reminder_id] else []) ++
          [Effect.arm reminder_id r.next_run]) := by
  have hid : r.id = reminder_id := get_reminder_found_id s.db reminder_id r hget
  constructor
  · have h1 := get_reminder_update_self s.db reminder_id (some v) none none none none
      nowUtc r hget (by simp)
    unfold edit_confirm_save
    rw [hget]
    dsimp only
    rw [h1]
    dsimp only
    refine ⟨by rw [h1]; rfl, ?_, rfl⟩
    unfold schedule_reminder
    have hid2 : (applyUpdate (some v) none none none none nowUtc r).id = reminder_id := by
      rw [applyUpdate_keeps_id]
      exact hid
    rw [unschedule_eq_removeJob, hid2, removeJob_idem]
    rfl
  · have h1 := get_reminder_update_self s.db reminder_id none none none (some v) none
      nowUtc r hget (by simp)
    unfold edit_confirm_save
    rw [hget]
    dsimp only
    rw [h1]
    dsimp only
    refine ⟨by rw [h1]; rfl, ?_, rfl⟩
    unfold schedule_reminder
    have hid2 : (applyUpdate none none none (some v) none nowUtc r).id = reminder_id := by
      rw [applyUpdate_keeps_id]
      exact hid
    rw [unschedule_eq_removeJob, hid2, removeJob_idem]
    rfl

/-- The state of the C9 counterexample and witness: one active weekly
reminder with id 1 and an empty timer table. -/
def rEdit : Reminder :=
  { id := 1, owner_user_id := 4, text := "old text", next_run := ⟨2024, 9, 2, 36000⟩,
    period := Period.weekly, chat_ref := "@crew", status := "active",
    created_at := ⟨2024, 8, 1, 0⟩, updated_at := ⟨2024, 8, 1, 0⟩, last_sent_at := none }

def sEdit : SysState := { db := { rows := [rEdit], nextId := 2 }, jobs := [] }

/-- Counterexample to claim C9: a pure text edit does touch the scheduling
engine - starting from an empty timer table the table afterwards holds a
timer for id 1, and the effect trace contains an arm effect, so the
operation disarms and re-arms rather than updating the store only. -/
theorem edit_text_touches_timer_cex :
    (edit_confirm_save sEdit 1 (EditField.ftext "new text") ⟨2024, 8, 2, 0⟩
        ⟨2024, 8, 2, 0⟩).1.jobs ≠ sEdit.jobs ∧
    Effect.arm 1 rEdit.next_run ∈
      (edit_confirm_save sEdit 1 (EditField.ftext "new text") ⟨2024, 8, 2, 0⟩
        ⟨2024, 8, 2, 0⟩).2 := by
  decide

/-- Witness for the amended C9 at the concrete state sEdit. -/
theorem edit_payload_updates_store_and_rearms_witness :
    (get_reminder (edit_confirm_save sEdit 1 (EditField.ftext "hello") ⟨2024, 8, 2, 0⟩
        ⟨2024, 8, 2, 3600⟩).1.db 1 =
        some { rEdit with text := "hello", updated_at := ⟨2024, 8, 2, 3600⟩ } ∧
      (edit_confirm_save sEdit 1 (EditField.ftext "hello") ⟨2024, 8, 2, 0⟩
        ⟨2024, 8, 2, 3600⟩).1.jobs = removeJob sEdit.jobs 1 ++ [(1, rEdit.next_run)] ∧
      (edit_confirm_save sEdit 1 (EditField.ftext "hello") ⟨2024, 8, 2, 0⟩
        ⟨2024, 8, 2, 3600⟩).2 =
        Effect.dbUpdate 1 ::
          (if (getJob sEdit.jobs 1).isSome then [Effect.disarm 1] else []) ++
          [Effect.arm 1 rEdit.next_run]) ∧
    (get_reminder (edit_confirm_save sEdit 1 (EditField.fchat "hello") ⟨2024, 8, 2, 0⟩
        ⟨2024, 8, 2, 3600⟩).1.db 1 =
        some { rEdit with chat_ref := "hello", updated_at := ⟨2024, 8, 2, 3600⟩ } ∧
      (edit_confirm_save sEdit 1 (EditField.fchat "hello") ⟨2024, 8, 2, 0⟩
        ⟨2024, 8, 2, 3600⟩).1.jobs = removeJob sEdit.jobs 1 ++ [(1, rEdit.next_run)] ∧
      (edit_confirm_save sEdit 1 (EditField.fchat "hello") ⟨2024, 8, 2, 0⟩
        ⟨2024, 8, 2, 3600⟩).2 =
        Effect.dbUpdate 1 ::
          (if (getJob sEdit.jobs 1).isSome then [Effect.disarm 1] else []) ++
          [Effect.arm 1 rEdit.next_run]) :=
  edit_payload_updates_store_and_rearms sEdit 1 rEdit "hello" ⟨2024, 8, 2, 0⟩
    ⟨2024, 8, 2, 3600⟩ (by decide)

/-- Claim C10 (amended): the delete operation performs the store write
first and the disarm second - its trace starts with the deactivation and
contains the disarm only afterwards (and only when a timer existed);
afterwards the record is inactive and no timer remains for the id. -/
theorem delete_deactivates_then_disarms (s : SysState) (reminder_id : Nat)
    (r : Reminder) (nowUtc : DateTime)
    (hget : get_reminder s.db reminder_id = some r) :
    get_reminder (delete_op s reminder_id nowUtc).1.db reminder_id =
      some { r with status := "inactive", updated_at := nowUtc } ∧
    (delete_op s reminder_id nowUtc).1.jobs = removeJob s.jobs reminder_id ∧
    (delete_op s reminder_id nowUtc).2 =
      Effect.dbDeactivate reminder_id ::
        (if (getJob s.jobs reminder_id).isSome then [Effect.disarm reminder_id] else []) ∧
    getJob (delete_op s reminder_id nowUtc).1.jobs reminder_id = none := by
  unfold delete_op
  dsimp only
  refine ⟨get_reminder_deactivate_self s.db reminder_id nowUtc r hget,
    unschedule_eq_removeJob s.jobs reminder_id, rfl, ?_⟩
  rw [unschedule_eq_removeJob]
  exact getJob_removeJob s.jobs reminder_id

/-- The state of the C10 counterexample and witness: one active daily
reminder with id 1 whose timer is armed. -/
def rDel : Reminder :=
  { id := 1, owner_user_id := 4, text := "backup", next_run := ⟨2024, 9, 2, 7200⟩,
    period := Period.daily, chat_ref := "@ops1", status := "active",
    created_at := ⟨2024, 8, 1, 0⟩, updated_at := ⟨2024, 8, 1, 0⟩, last_sent_at := none }

def sDel : SysState :=
  { db := { rows := [rDel], nextId := 2 }, jobs := [(1, ⟨2024, 9, 2, 7200⟩)] }

/-- Counterexample to claim C10: deleting id 1 of sDel emits the store
deactivation before the disarm - the trace is deactivate then disarm,
not disarm then deactivate as the claim requires. -/
theorem delete_disarm_first_cex :
    (delete_op sDel 1 ⟨2024, 9, 1, 0⟩).2 = [Effect.dbDeactivate 1, Effect.disarm 1] ∧
    (delete_op sDel 1 ⟨2024, 9, 1, 0⟩).2 ≠ [Effect.disarm 1, Effect.dbDeactivate 1] := by
  decide

/-- Witness for the amended C10 at the concrete state sDel. -/
theorem delete_deactivates_then_disarms_witness :
    get_reminder (delete_op sDel 1 ⟨2024, 9, 1, 0⟩).1.db 1 =
      some { rDel with status := "inactive", updated_at := ⟨2024, 9, 1, 0⟩ } ∧
    (delete_op sDel 1 ⟨2024, 9, 1, 0⟩).1.jobs = removeJob sDel.jobs 1 ∧
    (delete_op sDel 1 ⟨2024, 9, 1, 0⟩).2 =
      Effect.dbDeactivate 1 ::
        (if (getJob sDel.jobs 1).isSome then [Effect.disarm 1] else []) ∧
    getJob (delete_op sDel 1 ⟨2024, 9, 1, 0⟩).1.jobs 1 = none :=
  delete_deactivates_then_disarms sDel 1 rDel ⟨2024, 9, 1, 0⟩ (by decide)

/-- One Python positional call: it binds the positional arguments to the
parameters in order and raises TypeError unless the counts agree (the
storage functions involved have no default values and no varargs). -/
def pythonCallBinds (paramCount argCount : Nat) : Prop := argCount = paramCount

instance instDecPyCall (p a : Nat) : Decidable (pythonCallBinds p a) := by
  unfold pythonCallBinds; infer_instance

/-- Positional parameters of storage.add_reminder: db_path, owner_user_id,
text, next_run, period, chat_ref. -/
def add_reminder_paramCount : Nat := 6

/-- Positional arguments bot.add_chat passes to storage.add_reminder:
config.DB_PATH, the collected text, next_run, the collected period and
chat_ref - no owner argument anywhere in the call. -/
def add_chat_argCount : Nat := 5

/-- Claim C7 (bug evidence): the create path crashes - bot.add_chat calls
storage.add_reminder with five positional arguments where six parameters
are required, so Python raises TypeError before any record is inserted or
any timer armed, and the creating owner is dropped entirely. -/
theorem add_chat_create_raises :
    ¬ pythonCallBinds add_reminder_paramCount add_chat_argCount := by decide

/-- Positional parameters of storage.list_active_reminders: db_path,
owner_user_id. -/
def list_active_reminders_paramCount : Nat := 2

/-- Positional arguments bot.main passes to storage.list_active_reminders
while rehydrating timers at startup: config.DB_PATH only. -/
def main_rehydrate_argCount : Nat := 1

/-- Claim C8 (bug evidence): startup rehydration crashes - bot.main calls
the owner-filtered storage.list_active_reminders with one positional
argument where two parameters are required (the owner-agnostic
storage.list_all_active_reminders exists but is never called), so Python
raises TypeError before arming any timer. -/
theorem main_rehydrate_raises :
    ¬ pythonCallBinds list_active_reminders_paramCount main_rehydrate_argCount := by
  decide
